import Mathlib

/-!
# Flipbook viewer: shallow embedding

A shallow embedding in Lean 4 of the yearbook flipbook viewer of the
SACC main-website repository (the `Flipbook` component, together with the
page that mounts it, `frontend/pages/home.jsx`), and proofs of the
behavioural properties its specification states.

Modelling conventions:
* React `useState` cells become fields of an explicit `ViewerState`
  record; each event handler becomes a pure state transformer.
* JavaScript numbers are modelled as `Nat` / `Int` (all quantities
  involved are small integers); the one real-valued computation
  (`window.innerWidth / window.innerHeight`) is modelled over `ℚ`.
* `numPages` starts as `null` and is modelled as `Option Nat`;
  JavaScript truthiness tests (`!numPages`, `if (page && numPages)`,
  `if (yearbookDownloadPath)`) are translated explicitly, including the
  falsiness of `0`, `null`/`undefined` and the empty string.
* `parseInt` is modelled faithfully (`jsParseInt` for an unspecified
  radix, including the `0x` hexadecimal prefix; `jsParseIntDec` for an
  explicit radix 10): leading whitespace is skipped, an optional sign is
  read, and the longest digit prefix is converted; `NaN` becomes `none`.
* Downloads are modelled by the data of the `<a>` elements the code
  creates and clicks: for the page export, the list of
  (page number, filename) pairs, in order.
-/

namespace Flipbook

/-! ## JavaScript `parseInt` -/

/-- Is `c` one of the whitespace code points `parseInt` skips
(space, tab, LF, CR, VT, FF, NBSP)?  Code points: ' ' = 32, tab = 9,
LF = 10, CR = 13, VT = 11, FF = 12, NBSP = 160. -/
def isWS (c : Char) : Bool :=
  c.toNat = 32 || c.toNat = 9 || c.toNat = 10 || c.toNat = 13 ||
  c.toNat = 11 || c.toNat = 12 || c.toNat = 160

/-- Decimal digit value of `c` (code points 48–57), if any. -/
def digitVal (c : Char) : Option Nat :=
  if 48 ≤ c.toNat ∧ c.toNat ≤ 57 then some (c.toNat - 48) else none

/-- Hexadecimal digit value of `c` (0–9, a–f, A–F), if any. -/
def hexDigitVal (c : Char) : Option Nat :=
  if 48 ≤ c.toNat ∧ c.toNat ≤ 57 then some (c.toNat - 48)
  else if 97 ≤ c.toNat ∧ c.toNat ≤ 102 then some (c.toNat - 87)
  else if 65 ≤ c.toNat ∧ c.toNat ≤ 70 then some (c.toNat - 55)
  else none

/-- Accumulate the longest leading run of decimal digits into a value,
stopping at the first non-digit (as `parseInt` does). -/
def parseDigits (acc : Nat) : List Char → Nat
  | [] => acc
  | c :: rest =>
    match digitVal c with
    | some d => parseDigits (acc * 10 + d) rest
    | none => acc

/-- Value of the longest leading run of decimal digits; `none` when the
first character is not a decimal digit (`parseInt`'s `NaN`). -/
def decValue : List Char → Option Nat
  | [] => none
  | c :: rest =>
    match digitVal c with
    | some d => some (parseDigits d rest)
    | none => none

/-- Accumulate the longest leading run of hexadecimal digits. -/
def parseHexDigits (acc : Nat) : List Char → Nat
  | [] => acc
  | c :: rest =>
    match hexDigitVal c with
    | some d => parseHexDigits (acc * 16 + d) rest
    | none => acc

/-- Value of the longest leading run of hexadecimal digits, `none` if
there is none. -/
def hexValue : List Char → Option Nat
  | [] => none
  | c :: rest =>
    match hexDigitVal c with
    | some d => some (parseHexDigits d rest)
    | none => none

/-- The magnitude part of `parseInt` with an unspecified radix: a
leading `0x`/`0X` (code points 48, 120/88) selects hexadecimal,
otherwise the longest decimal digit prefix is taken. -/
def parseNatPrefix : List Char → Option Nat
  | c₀ :: c₁ :: rest =>
    if c₀.toNat = 48 ∧ (c₁.toNat = 120 ∨ c₁.toNat = 88) then hexValue rest
    else decValue (c₀ :: c₁ :: rest)
  | cs => decValue cs

/-- Attach a sign to an optionally-parsed magnitude (`neg = true` for
a leading '-'); `none` stays `NaN`. -/
def signed (neg : Bool) : Option Nat → Option Int
  | some n => if neg then some (-(n : Int)) else some (n : Int)
  | none => none

/-- `parseInt(s)` (radix unspecified), on the character list: skip
whitespace, read an optional sign ('+' = 43, '-' = 45), then the
magnitude; `none` models `NaN`. -/
def jsParseIntCore (cs : List Char) : Option Int :=
  match cs.dropWhile isWS with
  | [] => none
  | c :: rest =>
    if c.toNat = 43 then signed false (parseNatPrefix rest)
    else if c.toNat = 45 then signed true (parseNatPrefix rest)
    else signed false (parseNatPrefix (c :: rest))

/-- `parseInt(s)` with an unspecified radix, as used by
`handlePageInputSubmit` (`parseInt(pageInput)`). -/
def jsParseInt (s : String) : Option Int :=
  jsParseIntCore s.data

/-- `parseInt(s, 10)` on the character list: as `jsParseIntCore` but the
explicit radix 10 disables the hexadecimal prefix. -/
def jsParseIntDecCore (cs : List Char) : Option Int :=
  match cs.dropWhile isWS with
  | [] => none
  | c :: rest =>
    if c.toNat = 43 then signed false (decValue rest)
    else if c.toNat = 45 then signed true (decValue rest)
    else signed false (decValue (c :: rest))

/-- `parseInt(s, 10)`, as used by the deep-link effect. -/
def jsParseIntDec (s : String) : Option Int :=
  jsParseIntDecCore s.data

/-! ## Viewer state and event handlers -/

/-- The `useState` cells of the `Flipbook` component that the claims
are about: `numPages` (initially `null`), `currentPage` (initially 0),
`pageInput` (initially "1"), `isEditingPage` (initially `false`). -/
structure ViewerState where
  numPages : Option Nat
  currentPage : Nat
  pageInput : String
  isEditingPage : Bool
deriving DecidableEq, Repr

/-- The initial state of the component's `useState` cells. -/
def initState : ViewerState :=
  { numPages := none, currentPage := 0, pageInput := "1", isEditingPage := false }

/-- `onDocumentLoadSuccess({ numPages })`: records the page count. -/
def onDocumentLoadSuccess (st : ViewerState) (n : Nat) : ViewerState :=
  { st with numPages := some n }

/-- `onFlip(e)`: the page-turn mechanism reports a settled page index
`e.data`; the viewer records it and refreshes the manual-entry field
(`setCurrentPage(e.data); setPageInput(String(e.data + 1))`). -/
def onFlip (st : ViewerState) (data : Nat) : ViewerState :=
  { st with currentPage := data, pageInput := toString (data + 1) }

/-- Modelled from the spec: `pageFlip().flipPrev()` of the external
page-turn mechanism (the `react-pageflip` library, which is not part of
this repository).  Per the spec's collaborator contract, a backward
page turn settles one position back and is a no-op at page 0; the
settled index is reported through `onFlip`. -/
def flipPrev (st : ViewerState) : ViewerState :=
  if st.currentPage = 0 then st else onFlip st (st.currentPage - 1)

/-- Modelled from the spec: `pageFlip().flipNext()` of the external
page-turn mechanism.  A forward page turn settles one position ahead
and is a no-op at the last page; before the document loads there are no
pages to turn, so it is inert. -/
def flipNext (st : ViewerState) : ViewerState :=
  match st.numPages with
  | none => st
  | some p => if st.currentPage + 1 < p then onFlip st (st.currentPage + 1) else st

/-- `goToPreviousPage`: delegates to the page-turn mechanism's
`flipPrev` (the component calls it unconditionally once the flip-book
ref is mounted). -/
def goToPreviousPage (st : ViewerState) : ViewerState :=
  flipPrev st

/-- `goToNextPage`: delegates to the page-turn mechanism's `flipNext`. -/
def goToNextPage (st : ViewerState) : ViewerState :=
  flipNext st

/-- `handleKeyPress(e)`: ArrowLeft/ArrowUp invoke `goToPreviousPage`
unconditionally, ArrowRight/ArrowDown invoke `goToNextPage`; other keys
do nothing. -/
def handleKeyPress (st : ViewerState) (key : String) : ViewerState :=
  if key = "ArrowLeft" ∨ key = "ArrowUp" then goToPreviousPage st
  else if key = "ArrowRight" ∨ key = "ArrowDown" then goToNextPage st
  else st

/-- `goToPage(pageNum)`: when `1 <= pageNum` and `pageNum <= numPages`
(in JavaScript, `pageNum <= null` is false, so the whole guard fails
while `numPages` is still `null`), turn to the zero-based index
`pageNum - 1` (which settles through `onFlip`) and display `pageNum`;
otherwise do nothing at all. -/
def goToPage (st : ViewerState) (pageNum : Int) : ViewerState :=
  match st.numPages with
  | none => st
  | some p =>
    if 1 ≤ pageNum ∧ pageNum ≤ (p : Int) then
      let st' := onFlip st (pageNum - 1).toNat
      { st' with pageInput := toString pageNum }
    else st

/-- `handlePageInputSubmit(e)`: parse the entry with
`parseInt(pageInput)`; in range goes through `goToPage`, everything
else (out of range, `NaN`, `numPages` still `null`) reverts the field
to `String(currentPage + 1)`; either way editing mode ends.  The
handler is total: no exception escapes it. -/
def handlePageInputSubmit (st : ViewerState) : ViewerState :=
  match jsParseInt st.pageInput, st.numPages with
  | some n, some p =>
    if 1 ≤ n ∧ n ≤ (p : Int) then { goToPage st n with isEditingPage := false }
    else { st with pageInput := toString (st.currentPage + 1), isEditingPage := false }
  | _, _ => { st with pageInput := toString (st.currentPage + 1), isEditingPage := false }

/-- A navigation event: the operations that can change
`currentPage` while the viewer is mounted. -/
inductive NavOp where
  | prev : NavOp
  | next : NavOp
  | jump : Int → NavOp
  | submit : String → NavOp
  | key : String → NavOp
deriving DecidableEq, Repr

/-- Apply one navigation event.  `submit s` models typing `s` into the
manual-entry field (`handlePageInputChange`) and submitting it. -/
def applyOp (st : ViewerState) : NavOp → ViewerState
  | NavOp.prev => goToPreviousPage st
  | NavOp.next => goToNextPage st
  | NavOp.jump n => goToPage st n
  | NavOp.submit s => handlePageInputSubmit { st with pageInput := s }
  | NavOp.key k => handleKeyPress st k

/-- Apply a sequence of navigation events. -/
def applyOps (st : ViewerState) (ops : List NavOp) : ViewerState :=
  ops.foldl applyOp st

/-! ## Layout mode -/

/-- The two layout modes; the source's `isMobile = true` is `single`. -/
inductive LayoutMode where
  | single : LayoutMode
  | spread : LayoutMode
deriving DecidableEq, Repr

/-- `checkAspectRatio`: `window.innerWidth / window.innerHeight < 1.2`
decides the mobile (single-page) view; numeric comparison modelled
over `ℚ`, with `1.2 = 6/5`. -/
def checkAspectRatio (w h : ℚ) : Bool :=
  decide (w / h < 6 / 5)

/-- The layout mode determined by the viewport: `single` when the
aspect-ratio check flags mobile, `spread` otherwise. -/
def layoutModeOf (w h : ℚ) : LayoutMode :=
  if checkAspectRatio w h then LayoutMode.single else LayoutMode.spread

/-! ## Lazy rendering window -/

/-- `shouldRenderPage(pageIndex)`: false while `numPages` is falsy
(`null` or `0`); otherwise true exactly when
`Math.abs(pageIndex - currentPage) <= 5`. -/
def shouldRenderPage (numPages : Option Nat) (currentPage pageIndex : Nat) : Bool :=
  match numPages with
  | none => false
  | some p =>
    if p = 0 then false
    else decide (((pageIndex : Int) - (currentPage : Int)).natAbs ≤ 5)

/-- The zero-based page indices `pagesList` renders as real pages
(rather than numbered placeholders): the indices `0 … numPages - 1`
passing `shouldRenderPage`. -/
def renderedPages (numPages : Option Nat) (currentPage : Nat) : List Nat :=
  match numPages with
  | none => []
  | some p => (List.range p).filter (shouldRenderPage numPages currentPage)

/-! ## Downloads -/

/-- The outcome of `downloadPdf`: either a download is triggered via a
clicked `<a href=… download=…>` element, or the operation aborts with
the "download is not available" alert. -/
inductive DownloadResult where
  | triggered : String → String → DownloadResult
  | aborted : DownloadResult
deriving DecidableEq, Repr

/-- `yearbookDownloadPath.split("/").pop() || "yearbook.pdf"`: the last
`/`-separated component, with the default when it is falsy (empty). -/
def downloadFilename (s : String) : String :=
  match (s.splitOn "/").getLast? with
  | some t => if t.isEmpty then "yearbook.pdf" else t
  | none => "yearbook.pdf"

/-- `downloadPdf()`: with a truthy `yearbookDownloadPath`, triggers a
download of that path under its extracted filename; with a falsy one
(`undefined` or empty), logs an error and aborts with an alert. -/
def downloadPdf (yearbookDownloadPath : Option String) : DownloadResult :=
  match yearbookDownloadPath with
  | some s =>
    if s.isEmpty then DownloadResult.aborted
    else DownloadResult.triggered s (downloadFilename s)
  | none => DownloadResult.aborted

/-- The 1-based page numbers `downloadCurrentPage` collects in its
desktop (spread) branch: page 1 alone on the cover; otherwise the
current page and, when it exists, the one facing it. -/
def pagesToDownload (currentPage numPages : Nat) : List Nat :=
  if currentPage = 0 then [1]
  else if currentPage + 2 ≤ numPages then [currentPage + 1, currentPage + 2]
  else [currentPage + 1]

/-- The filename `downloadCurrentPage` assigns to the export of page
`pageNum` (the template literal in both its branches). -/
def exportFilename (pageNum : Nat) : String :=
  "yearbook-page-" ++ toString pageNum ++ ".png"

/-- Split a character list at every occurrence of `sep` (structural
recursion, so that concrete instances evaluate in the kernel). -/
def splitChar (sep : Char) : List Char → List (List Char)
  | [] => [[]]
  | c :: rest =>
    let r := splitChar sep rest
    if c = sep then [] :: r
    else
      match r with
      | [] => [[c]]
      | g :: gs => (c :: g) :: gs

/-- The filename pattern the spec claims for single-page exports,
following the spec's words (`<basename>-page-<N>.png`, the basename
derived from the document being viewed): stated only for comparison
with the code's `exportFilename`. -/
def specPageFilename (docPath : String) (pageNum : Nat) : String :=
  let file := ((splitChar '/' docPath.data).getLast?).getD docPath.data
  let base := ((splitChar '.' file).head?).getD file
  String.mk base ++ "-page-" ++ toString pageNum ++ ".png"

/-- `downloadCurrentPage()`, observed as the ordered list of
(page number, filename) downloads it triggers.  The guard
`!yearbookViewerPath || !numPages` (empty path, `null` or `0` pages)
aborts with an alert and downloads nothing; the mobile branch exports
the single current page; the desktop branch exports `pagesToDownload`.
The document path only feeds the high-resolution render, never the
filename. -/
def downloadCurrentPage (yearbookViewerPath : String) (isMobile : Bool)
    (currentPage : Nat) (numPages : Option Nat) : List (Nat × String) :=
  if yearbookViewerPath.isEmpty then []
  else
    match numPages with
    | none => []
    | some p =>
      if p = 0 then []
      else if isMobile then [(currentPage + 1, exportFilename (currentPage + 1))]
      else (pagesToDownload currentPage p).map (fun n => (n, exportFilename n))

/-! ## Deep-link jump (initial `page` query parameter) -/

/-- The jump target (zero-based) of the deep-link effect: it runs only
when both `page` and `numPages` are truthy, parses `page` with
`parseInt(page, 10)`, and installs the polling interval only when the
result lies in `[1, numPages]`; the target is then `pageNum - 1`. -/
def deepLinkTarget (page : Option String) (numPages : Option Nat) : Option Nat :=
  match page, numPages with
  | some s, some p =>
    if s.isEmpty ∨ p = 0 then none
    else
      match jsParseIntDec s with
      | some n => if 1 ≤ n ∧ n ≤ (p : Int) then some ((n - 1).toNat) else none
      | none => none
  | _, _ => none

/-- The observable state of the deep-link polling loop: the settled
current page and whether the interval is still installed. -/
structure PollState where
  currentPage : Nat
  active : Bool
deriving DecidableEq, Repr

/-- One tick of the polling interval: while the interval is installed,
a ready page-turn mechanism receives `turnToPage(target)` and the
interval is cleared; a not-yet-ready mechanism leaves everything as is.
A cleared interval never fires again. -/
def pollStep (target : Nat) (ps : PollState) (ready : Bool) : PollState :=
  if ps.active && ready then { currentPage := target, active := false } else ps

/-- Run the polling loop over a trace of readiness observations. -/
def pollRun (target : Nat) (trace : List Bool) (ps : PollState) : PollState :=
  trace.foldl (pollStep target) ps

/-- The deep-link behaviour end to end: if the effect computes a jump
target, the polling loop runs from the default state (`currentPage`
0, interval installed); otherwise no interval is ever installed and
the page stays at its default 0. -/
def deepLinkRun (page : Option String) (numPages : Option Nat)
    (trace : List Bool) : PollState :=
  match deepLinkTarget page numPages with
  | some t => pollRun t trace { currentPage := 0, active := true }
  | none => { currentPage := 0, active := false }

/-! ## Page wiring (`frontend/pages/home.jsx`) -/

/-- `viewerPdfMapping`: the year-to-viewer-path table. -/
def viewerPdfMapping (year : String) : Option String :=
  if year = "2k21" then some "./assets/yearbooks/2k21.pdf"
  else if year = "2k20" then some "./assets/yearbooks/2k20.pdf"
  else if year = "2k19" then some "./assets/yearbooks/2k19.pdf"
  else if year = "2k15" then some "./assets/yearbooks/2k15.pdf"
  else if year = "2k14" then some "./assets/yearbooks/2k14.pdf"
  else none

/-- `downloadPdfMapping`: the year-to-download-path table (only 2k21
has a dedicated download file). -/
def downloadPdfMapping (year : String) : Option String :=
  if year = "2k21" then some "./assets/yearbooks/Yearbook_2k21.pdf"
  else none

/-- `latestYearKey = Object.keys(viewerPdfMapping)[0]`. -/
def latestYearKey : String := "2k21"

/-- JavaScript `a || b` on possibly-undefined strings: `a` unless it is
`undefined` or empty (falsy). -/
def jsOrStr (a b : Option String) : Option String :=
  match a with
  | some s => if s.isEmpty then b else some s
  | none => b

/-- `ybViewPath = viewerPdfMapping[year] || viewerPdfMapping[latestYearKey]`. -/
def ybViewPath (year : String) : Option String :=
  jsOrStr (viewerPdfMapping year) (viewerPdfMapping latestYearKey)

/-- `ybDownloadPath = downloadPdfMapping[year] || ybViewPath`: the page
defaults the download path to the viewer path before constructing the
`Flipbook`. -/
def ybDownloadPath (year : String) : Option String :=
  jsOrStr (downloadPdfMapping year) (ybViewPath year)

/-! ## Helper lemmas -/

/-- Bounds extracted from a successful decimal-digit classification. -/
theorem digitVal_bounds (c : Char) (d : Nat) (h : digitVal c = some d) :
    48 ≤ c.toNat ∧ c.toNat ≤ 57 ∧ d = c.toNat - 48 := by
  unfold digitVal at h
  split at h
  · next hc => exact ⟨hc.1, hc.2, (Option.some.inj h).symm⟩
  · exact absurd h (by simp)

/-- A character outside the decimal range is not a digit. -/
theorem digitVal_eq_none (c : Char) (h : ¬(48 ≤ c.toNat ∧ c.toNat ≤ 57)) :
    digitVal c = none := by
  unfold digitVal
  rw [if_neg h]

/-- Decimal digits are not `parseInt` whitespace. -/
theorem isWS_of_digit (c : Char) (d : Nat) (h : digitVal c = some d) :
    isWS c = false := by
  obtain ⟨h1, h2, -⟩ := digitVal_bounds c d h
  unfold isWS
  simp only [Bool.or_eq_false_iff, decide_eq_false_iff_not]
  omega

/-- `parseInt` with an unspecified radix agrees with the value of the
longest leading decimal-digit run whenever that run denotes a positive
number (a leading `0x` can only arise from the digit run `0`). -/
theorem jsParseIntCore_decValue (cs : List Char) (n : Nat)
    (hdv : decValue cs = some n) (h1 : 1 ≤ n) :
    jsParseIntCore cs = some (n : Int) := by
  match cs with
  | [] => exact absurd hdv (by simp [decValue])
  | c :: rest =>
    simp only [decValue] at hdv
    cases hd : digitVal c with
    | none => rw [hd] at hdv; exact absurd hdv (by simp)
    | some d =>
      rw [hd] at hdv
      have hn : parseDigits d rest = n := Option.some.inj hdv
      obtain ⟨hb1, hb2, hbd⟩ := digitVal_bounds c d hd
      have hws : isWS c = false := isWS_of_digit c d hd
      have hdrop : (c :: rest).dropWhile isWS = c :: rest := by
        rw [List.dropWhile_cons, hws]
        simp
      unfold jsParseIntCore
      rw [hdrop]
      dsimp only
      rw [if_neg (by omega), if_neg (by omega)]
      have hpre : parseNatPrefix (c :: rest) = some n := by
        match rest with
        | [] =>
          simp only [parseNatPrefix, decValue, hd, hn]
        | c₁ :: rest' =>
          by_cases hhex : c.toNat = 48 ∧ (c₁.toNat = 120 ∨ c₁.toNat = 88)
          · exfalso
            obtain ⟨h48, hx⟩ := hhex
            have hd1 : digitVal c₁ = none :=
              digitVal_eq_none c₁ (by rcases hx with h | h <;> omega)
            have hpd : parseDigits d (c₁ :: rest') = d := by
              simp only [parseDigits, hd1]
            omega
          · simp only [parseNatPrefix, decValue]
            rw [if_neg hhex, hd]
            dsimp only
            rw [hn]
      rw [hpre]
      rfl

/-- `onFlip` leaves the page count alone. -/
theorem onFlip_numPages (st : ViewerState) (d : Nat) :
    (onFlip st d).numPages = st.numPages := rfl

/-- `goToPage` leaves the page count alone. -/
theorem goToPage_numPages (st : ViewerState) (n : Int) :
    (goToPage st n).numPages = st.numPages := by
  obtain ⟨np, cp, pi, ed⟩ := st
  unfold goToPage
  cases np with
  | none => rfl
  | some p => dsimp only; split <;> rfl

/-- `goToPage` keeps the current index below a known page count. -/
theorem goToPage_currentPage_lt (p : Nat) (st : ViewerState) (n : Int)
    (hnp : st.numPages = some p) (h : st.currentPage < p) :
    (goToPage st n).currentPage < p := by
  obtain ⟨np, cp, pi, ed⟩ := st
  cases hnp
  unfold goToPage
  dsimp only
  split
  · next hc => dsimp only [onFlip]; omega
  · exact h

/-- `goToPage` on an argument outside `[1, numPages]` — or with the
page count still unknown — returns the state unchanged. -/
theorem goToPage_invalid (st : ViewerState) (n : Int)
    (h : ∀ p : Nat, st.numPages = some p → n < 1 ∨ (p : Int) < n) :
    goToPage st n = st := by
  obtain ⟨np, cp, pi, ed⟩ := st
  unfold goToPage
  cases np with
  | none => rfl
  | some p =>
    dsimp only
    rw [if_neg]
    intro hc
    rcases h p rfl with h' | h' <;> omega

/-- Exact result of submitting an in-range entry. -/
theorem handlePageInputSubmit_valid (st : ViewerState) (p : Nat) (n : Int)
    (hnp : st.numPages = some p) (hj : jsParseInt st.pageInput = some n)
    (h1 : 1 ≤ n) (h2 : n ≤ (p : Int)) :
    handlePageInputSubmit st =
      { numPages := some p, currentPage := (n - 1).toNat,
        pageInput := toString n, isEditingPage := false } := by
  obtain ⟨np, cp, pi, ed⟩ := st
  cases hnp
  unfold handlePageInputSubmit
  dsimp only at hj ⊢
  rw [hj]
  dsimp only
  rw [if_pos ⟨h1, h2⟩]
  unfold goToPage
  dsimp only
  rw [if_pos ⟨h1, h2⟩]
  rfl

/-- Exact result of submitting an entry that is non-numeric or out of
range (with the page count known). -/
theorem handlePageInputSubmit_invalid (st : ViewerState) (p : Nat)
    (hnp : st.numPages = some p)
    (h : ∀ n : Int, jsParseInt st.pageInput = some n → n < 1 ∨ (p : Int) < n) :
    handlePageInputSubmit st =
      { st with pageInput := toString (st.currentPage + 1), isEditingPage := false } := by
  obtain ⟨np, cp, pi, ed⟩ := st
  cases hnp
  unfold handlePageInputSubmit
  dsimp only at h ⊢
  cases hj : jsParseInt pi with
  | none => rfl
  | some n =>
    dsimp only
    rw [if_neg]
    intro hc
    rcases h n hj with h' | h' <;> omega

/-- Exact result of submitting an entry `parseInt` cannot parse at all
(`NaN`), whatever the page count. -/
theorem handlePageInputSubmit_nan (st : ViewerState)
    (hj : jsParseInt st.pageInput = none) :
    handlePageInputSubmit st =
      { st with pageInput := toString (st.currentPage + 1), isEditingPage := false } := by
  obtain ⟨np, cp, pi, ed⟩ := st
  dsimp only at hj
  unfold handlePageInputSubmit
  dsimp only
  rw [hj]

/-- `handlePageInputSubmit` preserves the page count and the bounds
invariant. -/
theorem handlePageInputSubmit_inv (st : ViewerState) (p : Nat)
    (hnp : st.numPages = some p) (h : st.currentPage < p) :
    (handlePageInputSubmit st).numPages = some p
    ∧ (handlePageInputSubmit st).currentPage < p := by
  obtain ⟨np, cp, pi, ed⟩ := st
  cases hnp
  unfold handlePageInputSubmit
  dsimp only at h ⊢
  cases hj : jsParseInt pi with
  | none => exact ⟨rfl, h⟩
  | some n =>
    dsimp only
    split
    · next hc =>
      refine ⟨?_, ?_⟩
      · exact goToPage_numPages ⟨some p, cp, pi, ed⟩ n
      · exact goToPage_currentPage_lt p ⟨some p, cp, pi, ed⟩ n rfl h
    · exact ⟨rfl, h⟩

/-- `flipPrev` preserves the page count and the bounds invariant. -/
theorem flipPrev_inv (st : ViewerState) (p : Nat)
    (hnp : st.numPages = some p) (h : st.currentPage < p) :
    (flipPrev st).numPages = some p ∧ (flipPrev st).currentPage < p := by
  unfold flipPrev
  split
  · exact ⟨hnp, h⟩
  · exact ⟨hnp, by dsimp only [onFlip]; omega⟩

/-- `flipNext` preserves the page count and the bounds invariant. -/
theorem flipNext_inv (st : ViewerState) (p : Nat)
    (hnp : st.numPages = some p) (h : st.currentPage < p) :
    (flipNext st).numPages = some p ∧ (flipNext st).currentPage < p := by
  obtain ⟨np, cp, pi, ed⟩ := st
  cases hnp
  unfold flipNext
  dsimp only at h ⊢
  split
  · next hc => exact ⟨rfl, by dsimp only [onFlip]; omega⟩
  · exact ⟨rfl, h⟩

/-- Every navigation event preserves the page count and the bounds
invariant. -/
theorem applyOp_inv (st : ViewerState) (op : NavOp) (p : Nat)
    (hnp : st.numPages = some p) (h : st.currentPage < p) :
    (applyOp st op).numPages = some p ∧ (applyOp st op).currentPage < p := by
  cases op with
  | prev => exact flipPrev_inv st p hnp h
  | next => exact flipNext_inv st p hnp h
  | jump n =>
    exact ⟨(goToPage_numPages st n).trans hnp, goToPage_currentPage_lt p st n hnp h⟩
  | submit s => exact handlePageInputSubmit_inv { st with pageInput := s } p hnp h
  | key k =>
    show (handleKeyPress st k).numPages = some p ∧ (handleKeyPress st k).currentPage < p
    unfold handleKeyPress
    split
    · exact flipPrev_inv st p hnp h
    · split
      · exact flipNext_inv st p hnp h
      · exact ⟨hnp, h⟩

/-- Sequences of navigation events preserve the page count and the
bounds invariant. -/
theorem applyOps_inv (st : ViewerState) (ops : List NavOp) (p : Nat)
    (hnp : st.numPages = some p) (h : st.currentPage < p) :
    (applyOps st ops).numPages = some p ∧ (applyOps st ops).currentPage < p := by
  induction ops generalizing st with
  | nil => exact ⟨hnp, h⟩
  | cons op rest ih =>
    have h' := applyOp_inv st op p hnp h
    exact ih (applyOp st op) h'.1 h'.2

/-- The viewer path table always resolves to a non-empty path. -/
theorem ybViewPath_nonempty (year : String) :
    ∃ v : String, ybViewPath year = some v ∧ v.isEmpty = false := by
  unfold ybViewPath
  cases hvm : viewerPdfMapping year with
  | none =>
    refine ⟨"./assets/yearbooks/2k21.pdf", ?_, by decide⟩
    simp [jsOrStr, latestYearKey, viewerPdfMapping]
  | some s =>
    have hs : s.isEmpty = false := by
      unfold viewerPdfMapping at hvm
      split_ifs at hvm <;> simp_all <;> subst hvm <;> decide
    exact ⟨s, by simp [jsOrStr, hs], hs⟩

/-- A cleared polling interval never changes the state again. -/
theorem pollRun_inactive (target : Nat) (trace : List Bool) (c : Nat) :
    pollRun target trace { currentPage := c, active := false }
      = { currentPage := c, active := false } := by
  induction trace with
  | nil => rfl
  | cons b rest ih => exact ih

/-- From an active interval, the first tick at which the page-turn
mechanism is ready performs the jump and clears the interval, after
which nothing changes. -/
theorem pollRun_reaches (target : Nat) (trace : List Bool)
    (h : trace.any id = true) (c : Nat) :
    pollRun target trace { currentPage := c, active := true }
      = { currentPage := target, active := false } := by
  induction trace generalizing c with
  | nil => simp at h
  | cons b rest ih =>
    cases b with
    | true => exact pollRun_inactive target rest target
    | false => exact ih (by simpa using h) c

/-! ## Theorems -/

/-- C1: in spread (desktop) layout with the page count known,
`downloadCurrentPage` exports exactly page 1 on the cover
(`currentPageIndex = 0`), and otherwise exactly `currentPageIndex + 1`
together with `currentPageIndex + 2` precisely when the latter exists
(`currentPageIndex + 2 ≤ pageCount`) and nothing else; in particular
pages 8 and 9 for index 7 of 20, and page 20 alone for index 19 of 20. -/
theorem downloadCurrentPage_spread_selection
    (vp : String) (cp p : Nat) (hvp : vp.isEmpty = false) (hp : 0 < p) :
    (cp = 0 → (downloadCurrentPage vp false cp (some p)).map Prod.fst = [1])
    ∧ (0 < cp → ∀ n : Nat,
        n ∈ (downloadCurrentPage vp false cp (some p)).map Prod.fst ↔
          n = cp + 1 ∨ (n = cp + 2 ∧ cp + 2 ≤ p))
    ∧ (downloadCurrentPage vp false 7 (some 20)).map Prod.fst = [8, 9]
    ∧ (downloadCurrentPage vp false 19 (some 20)).map Prod.fst = [20] := by
  have hp' : p ≠ 0 := by omega
  refine ⟨fun h0 => ?_, fun hcp n => ?_, ?_, ?_⟩
  · simp [downloadCurrentPage, hvp, hp', pagesToDownload, h0]
  · have h0 : cp ≠ 0 := by omega
    by_cases h2 : cp + 2 ≤ p <;>
      simp [downloadCurrentPage, hvp, hp', pagesToDownload, h0, h2]
  · simp [downloadCurrentPage, hvp, pagesToDownload]
  · simp [downloadCurrentPage, hvp, pagesToDownload]

/-- C1 witness: the theorem instantiated at a non-empty viewer path,
index 7 and page count 20. -/
theorem downloadCurrentPage_spread_selection_witness :
    ((("./assets/yearbooks/2k21.pdf" : String).isEmpty = false) ∧ 0 < 20)
    ∧ ((7 = 0 → (downloadCurrentPage "./assets/yearbooks/2k21.pdf" false 7 (some 20)).map
          Prod.fst = [1])
      ∧ (0 < 7 → ∀ n : Nat,
          n ∈ (downloadCurrentPage "./assets/yearbooks/2k21.pdf" false 7 (some 20)).map
            Prod.fst ↔ n = 7 + 1 ∨ (n = 7 + 2 ∧ 7 + 2 ≤ 20))
      ∧ (downloadCurrentPage "./assets/yearbooks/2k21.pdf" false 7 (some 20)).map
          Prod.fst = [8, 9]
      ∧ (downloadCurrentPage "./assets/yearbooks/2k21.pdf" false 19 (some 20)).map
          Prod.fst = [20]) :=
  ⟨⟨by decide, by decide⟩,
   downloadCurrentPage_spread_selection ("./assets/yearbooks/2k21.pdf") 7 20
     (by decide) (by decide)⟩

/-- C4 counterexample: viewing `./assets/yearbooks/2k20.pdf` (basename
`2k20`) at index 7 of 20 in spread mode, the export produces
`yearbook-page-8.png` and `yearbook-page-9.png`, not the claimed
`<basename>-page-<N>.png` pattern, which here would be
`2k20-page-8.png`: the basename component is a fixed literal, not
derived from the document being viewed. -/
theorem exportFilename_not_doc_basename :
    (downloadCurrentPage "./assets/yearbooks/2k20.pdf" false 7 (some 20)).map Prod.snd
      = ["yearbook-page-8.png", "yearbook-page-9.png"]
    ∧ specPageFilename "./assets/yearbooks/2k20.pdf" 8 = "2k20-page-8.png"
    ∧ ("yearbook-page-8.png" : String) ≠ "2k20-page-8.png" := by
  refine ⟨by decide, by decide, by decide⟩

/-- C4 amended: every filename `downloadCurrentPage` produces is the
fixed literal basename `yearbook` followed by `-page-`, the number of
the page actually exported, and `.png`; the filenames are independent
of the document path being viewed. -/
theorem exportFilename_fixed_basename :
    (∀ (vp : String) (mob : Bool) (cp : Nat) (np : Option Nat),
       ∀ pr ∈ downloadCurrentPage vp mob cp np,
         pr.2 = "yearbook-page-" ++ toString pr.1 ++ ".png")
    ∧ (∀ (vp vp' : String) (mob : Bool) (cp : Nat) (np : Option Nat),
       vp.isEmpty = false → vp'.isEmpty = false →
       downloadCurrentPage vp mob cp np = downloadCurrentPage vp' mob cp np) := by
  constructor
  · intro vp mob cp np pr hpr
    unfold downloadCurrentPage at hpr
    split at hpr
    · simp at hpr
    · split at hpr
      · simp at hpr
      · split at hpr
        · simp at hpr
        · split at hpr
          · simp at hpr
            subst hpr
            simp [exportFilename]
          · simp [List.mem_map] at hpr
            obtain ⟨n, _, hn⟩ := hpr
            subst hn
            simp [exportFilename]
  · intro vp vp' mob cp np h h'
    unfold downloadCurrentPage
    rw [h, h']

/-- C4 amended-theorem witness: instantiated at the export of page 8
from a concrete state, and at two distinct document paths. -/
theorem exportFilename_fixed_basename_witness :
    (("yearbook-page-8.png" : String) = "yearbook-page-" ++ toString 8 ++ ".png")
    ∧ downloadCurrentPage "a.pdf" false 7 (some 20)
        = downloadCurrentPage "b.pdf" false 7 (some 20) :=
  ⟨exportFilename_fixed_basename.1 ("a.pdf") false 7 (some 20)
      (8, "yearbook-page-8.png") (by decide),
   exportFilename_fixed_basename.2 ("a.pdf") ("b.pdf") false 7 (some 20)
      (by decide) (by decide)⟩

/-- C5: for every viewport with positive height, the layout mode is
`single` exactly when the aspect ratio is below 1.2 and `spread`
exactly when it is at least 1.2; ratio 1.2 (6 : 5) gives `spread`,
ratio 0.8 (4 : 5) gives `single`, ratio 1.6 (8 : 5) gives `spread`. -/
theorem layoutMode_threshold :
    (∀ w h : ℚ, 0 < h →
       ((layoutModeOf w h = LayoutMode.single ↔ w / h < 6 / 5)
        ∧ (layoutModeOf w h = LayoutMode.spread ↔ (6 / 5 : ℚ) ≤ w / h)))
    ∧ layoutModeOf 6 5 = LayoutMode.spread
    ∧ layoutModeOf 4 5 = LayoutMode.single
    ∧ layoutModeOf 8 5 = LayoutMode.spread := by
  refine ⟨fun w h _ => ?_, ?_, ?_, ?_⟩
  · by_cases hr : w / h < 6 / 5
    · simp [layoutModeOf, checkAspectRatio, hr, not_le.mpr hr]
    · simp [layoutModeOf, checkAspectRatio, hr, not_lt.mp hr]
  · have h1 : ¬((6 : ℚ) / 5 < 6 / 5) := lt_irrefl _
    simp [layoutModeOf, checkAspectRatio, h1]
  · have h1 : (4 : ℚ) / 5 < 6 / 5 := by norm_num
    simp [layoutModeOf, checkAspectRatio, h1]
  · have h1 : ¬((8 : ℚ) / 5 < 6 / 5) := by norm_num
    simp [layoutModeOf, checkAspectRatio, h1]

/-- C5 witness: the threshold equivalences instantiated at the
boundary viewport 6 × 5 (ratio exactly 1.2). -/
theorem layoutMode_threshold_witness :
    (0 : ℚ) < 5
    ∧ ((layoutModeOf 6 5 = LayoutMode.single ↔ (6 : ℚ) / 5 < 6 / 5)
      ∧ (layoutModeOf 6 5 = LayoutMode.spread ↔ (6 / 5 : ℚ) ≤ 6 / 5)) :=
  ⟨by norm_num, layoutMode_threshold.1 6 5 (by norm_num)⟩

/-- C9: with the page count known, a page index is classified as
rendered exactly when it lies within distance 5 of the current index;
consequently at most 2 · 5 + 1 = 11 pages are rendered whatever the
page count, and no page is rendered while the page count is unknown. -/
theorem renderWindow_bounded :
    (∀ p cp idx : Nat, 0 < p →
       (shouldRenderPage (some p) cp idx = true ↔
         (cp : Int) - 5 ≤ (idx : Int) ∧ (idx : Int) ≤ (cp : Int) + 5))
    ∧ (∀ (np : Option Nat) (cp : Nat), (renderedPages np cp).length ≤ 11)
    ∧ (∀ cp idx : Nat, shouldRenderPage none cp idx = false) := by
  refine ⟨fun p cp idx hp => ?_, fun np cp => ?_, fun cp idx => rfl⟩
  · have hp' : p ≠ 0 := by omega
    simp [shouldRenderPage, hp']
    omega
  · match np with
    | none => simp [renderedPages]
    | some p =>
      by_cases hp : p = 0
      · subst hp; simp [renderedPages]
      · have hnd : ((List.range p).filter (shouldRenderPage (some p) cp)).Nodup :=
          (List.nodup_range p).filter _
        have hsub : ((List.range p).filter (shouldRenderPage (some p) cp)).toFinset ⊆
            Finset.Icc (cp - 5) (cp + 5) := by
          intro x hx
          simp [List.mem_filter, shouldRenderPage, hp] at hx
          simp [Finset.mem_Icc]
          omega
        calc ((renderedPages (some p) cp)).length
            = ((List.range p).filter (shouldRenderPage (some p) cp)).toFinset.card := by
              rw [List.toFinset_card_of_nodup hnd]; rfl
          _ ≤ (Finset.Icc (cp - 5) (cp + 5)).card := Finset.card_le_card hsub
          _ ≤ 11 := by rw [Nat.card_Icc]; omega

/-- C9 witness: the window characterization instantiated at page count
100, current index 50, page index 55. -/
theorem renderWindow_bounded_witness :
    (0 < 100)
    ∧ (shouldRenderPage (some 100) 50 55 = true ↔
        (50 : Int) - 5 ≤ (55 : Int) ∧ (55 : Int) ≤ (50 : Int) + 5) :=
  ⟨by decide, renderWindow_bounded.1 100 50 55 (by decide)⟩

/-- C2: along every sequence of navigation events with the page count
known, `0 ≤ currentPageIndex < pageCount` holds; and `goToPage n` for
`n` outside `[1, pageCount]` — including whenever the page count is
still unknown — returns the state completely unchanged. -/
theorem nav_bounds_invariant :
    (∀ (st : ViewerState) (p : Nat) (ops : List NavOp),
       st.numPages = some p → st.currentPage < p →
       0 ≤ ((applyOps st ops).currentPage : Int)
       ∧ (applyOps st ops).currentPage < p)
    ∧ (∀ (st : ViewerState) (n : Int),
       (∀ p : Nat, st.numPages = some p → n < 1 ∨ (p : Int) < n) →
       goToPage st n = st) := by
  constructor
  · intro st p ops hnp h
    exact ⟨Int.natCast_nonneg _, (applyOps_inv st ops p hnp h).2⟩
  · intro st n h
    exact goToPage_invalid st n h

/-- C2 witness: a concrete event sequence from a loaded 12-page state,
and the rejected jump `goToPage 50`. -/
theorem nav_bounds_invariant_witness :
    (0 ≤ ((applyOps
        { numPages := some 12, currentPage := 0, pageInput := "1", isEditingPage := false }
        [NavOp.next, NavOp.next, NavOp.prev, NavOp.jump 50]).currentPage : Int)
     ∧ (applyOps
        { numPages := some 12, currentPage := 0, pageInput := "1", isEditingPage := false }
        [NavOp.next, NavOp.next, NavOp.prev, NavOp.jump 50]).currentPage < 12)
    ∧ goToPage
        { numPages := some 12, currentPage := 0, pageInput := "1", isEditingPage := false }
        50
      = { numPages := some 12, currentPage := 0, pageInput := "1", isEditingPage := false } :=
  ⟨nav_bounds_invariant.1
      { numPages := some 12, currentPage := 0, pageInput := "1", isEditingPage := false }
      12 [NavOp.next, NavOp.next, NavOp.prev, NavOp.jump 50] rfl (by decide),
   nav_bounds_invariant.2
      { numPages := some 12, currentPage := 0, pageInput := "1", isEditingPage := false }
      50 (by intro p hp; simp at hp; omega)⟩

/-- C3: for every year whose entry in the download table is absent, the
page (`home.jsx`) wires the viewer path in as the download path, and
`downloadPdf` then still triggers a download of that path — it does not
abort. -/
theorem downloadPdf_default_path (year : String)
    (h : downloadPdfMapping year = none) :
    ∃ v : String, ybViewPath year = some v ∧ ybDownloadPath year = some v ∧
      downloadPdf (ybDownloadPath year)
        = DownloadResult.triggered v (downloadFilename v) := by
  obtain ⟨v, hv, hne⟩ := ybViewPath_nonempty year
  have hd : ybDownloadPath year = some v := by
    unfold ybDownloadPath
    rw [h, hv]
    rfl
  refine ⟨v, hv, hd, ?_⟩
  rw [hd]
  unfold downloadPdf
  dsimp only
  rw [if_neg (by simp [hne])]

/-- C3 witness: the year `2k20` has no download-table entry, and the
full-document download still triggers, at the viewer path. -/
theorem downloadPdf_default_path_witness :
    downloadPdfMapping "2k20" = none
    ∧ ∃ v : String, ybViewPath "2k20" = some v ∧ ybDownloadPath "2k20" = some v ∧
        downloadPdf (ybDownloadPath "2k20")
          = DownloadResult.triggered v (downloadFilename v) :=
  ⟨by decide, downloadPdf_default_path "2k20" (by decide)⟩

/-- C6: with the page count known, submitting a manual page entry that
parses in range settles the viewer on the zero-based index
`enteredValue - 1`; an entry that is non-numeric or out of range leaves
the current index unchanged and reverts the displayed field to
`currentPageIndex + 1`; either way editing mode ends and the (total)
handler throws nothing. -/
theorem handlePageInputSubmit_roundtrip (st : ViewerState) (p : Nat)
    (hnp : st.numPages = some p) :
    (∀ n : Int, jsParseInt st.pageInput = some n → 1 ≤ n → n ≤ (p : Int) →
       (handlePageInputSubmit st).currentPage = (n - 1).toNat
       ∧ (handlePageInputSubmit st).isEditingPage = false)
    ∧ ((∀ n : Int, jsParseInt st.pageInput = some n → n < 1 ∨ (p : Int) < n) →
       (handlePageInputSubmit st).currentPage = st.currentPage
       ∧ (handlePageInputSubmit st).pageInput = toString (st.currentPage + 1)
       ∧ (handlePageInputSubmit st).isEditingPage = false) := by
  constructor
  · intro n hj h1 h2
    rw [handlePageInputSubmit_valid st p n hnp hj h1 h2]
    exact ⟨rfl, rfl⟩
  · intro h
    rw [handlePageInputSubmit_invalid st p hnp h]
    exact ⟨rfl, rfl, rfl⟩

/-- C6 witness: submitting "5" from a 12-page state lands on index 4;
submitting "abc" from index 3 reverts the field to "4". -/
theorem handlePageInputSubmit_roundtrip_witness :
    ((handlePageInputSubmit
        { numPages := some 12, currentPage := 0, pageInput := "5", isEditingPage := true
          }).currentPage = ((5 : Int) - 1).toNat
     ∧ (handlePageInputSubmit
        { numPages := some 12, currentPage := 0, pageInput := "5", isEditingPage := true
          }).isEditingPage = false)
    ∧ ((handlePageInputSubmit
        { numPages := some 12, currentPage := 3, pageInput := "abc", isEditingPage := true
          }).currentPage = 3
      ∧ (handlePageInputSubmit
        { numPages := some 12, currentPage := 3, pageInput := "abc", isEditingPage := true
          }).pageInput = toString (3 + 1)
      ∧ (handlePageInputSubmit
        { numPages := some 12, currentPage := 3, pageInput := "abc", isEditingPage := true
          }).isEditingPage = false) :=
  ⟨(handlePageInputSubmit_roundtrip
      { numPages := some 12, currentPage := 0, pageInput := "5", isEditingPage := true }
      12 rfl).1 5 (by decide) (by decide) (by decide),
   (handlePageInputSubmit_roundtrip
      { numPages := some 12, currentPage := 3, pageInput := "abc", isEditingPage := true }
      12 rfl).2 (by
        intro n hn
        dsimp only at hn
        rw [(by decide : jsParseInt "abc" = none)] at hn
        exact Option.noConfusion hn)⟩

/-- C7: with deep link "5" and a page count of 12, as soon as a polling
tick observes the page-turn mechanism ready, the viewer settles on
index 4 and the interval is cleared for good (the final state is the
same whatever happens on later ticks); the deep link "50" is out of
range for 12 pages, so no interval is installed and the index stays at
its default 0 — and likewise for every out-of-range deep-link value. -/
theorem deepLink_jump :
    (∀ trace : List Bool, trace.any id = true →
       deepLinkRun (some "5") (some 12) trace
         = { currentPage := 4, active := false })
    ∧ (∀ trace : List Bool,
       deepLinkRun (some "50") (some 12) trace
         = { currentPage := 0, active := false })
    ∧ (∀ (s : String) (p : Nat) (n : Int) (trace : List Bool),
       jsParseIntDec s = some n → n < 1 ∨ (p : Int) < n →
       deepLinkRun (some s) (some p) trace
         = { currentPage := 0, active := false }) := by
  refine ⟨fun trace h => ?_, fun trace => ?_, fun s p n trace hn hr => ?_⟩
  · have h5 : deepLinkTarget (some "5") (some 12) = some 4 := by decide
    unfold deepLinkRun
    rw [h5]
    exact pollRun_reaches 4 trace h 0
  · have h50 : deepLinkTarget (some "50") (some 12) = none := by decide
    unfold deepLinkRun
    rw [h50]
  · have ht : deepLinkTarget (some s) (some p) = none := by
      unfold deepLinkTarget
      dsimp only
      by_cases he : s.isEmpty ∨ p = 0
      · rw [if_pos he]
      · rw [if_neg he, hn]
        dsimp only
        rw [if_neg]
        intro hc
        rcases hr with h' | h' <;> omega
    unfold deepLinkRun
    rw [ht]

/-- C7 witness: a trace where the mechanism becomes ready on the second
tick, and the out-of-range deep link "50" on 12 pages. -/
theorem deepLink_jump_witness :
    deepLinkRun (some "5") (some 12) [false, true]
      = { currentPage := 4, active := false }
    ∧ deepLinkRun (some "50") (some 12) [false, true]
      = { currentPage := 0, active := false } :=
  ⟨deepLink_jump.1 [false, true] (by decide),
   deepLink_jump.2.2 "50" 12 50 [false, true] (by decide) (by decide)⟩

/-- C8: at the first page, any number of `goToPreviousPage` calls —
also through the ArrowLeft/ArrowUp key bindings, which invoke it
unconditionally — leaves the index at 0; at the last page, any number
of `goToNextPage` calls leaves the index at `pageCount - 1`. -/
theorem boundary_nav_idempotent (st : ViewerState) (p k : Nat)
    (hnp : st.numPages = some p) :
    (st.currentPage = 0 →
       (goToPreviousPage^[k] st).currentPage = 0
       ∧ ((fun s => handleKeyPress s "ArrowLeft")^[k] st).currentPage = 0
       ∧ ((fun s => handleKeyPress s "ArrowUp")^[k] st).currentPage = 0)
    ∧ (st.currentPage = p - 1 →
       (goToNextPage^[k] st).currentPage = p - 1) := by
  constructor
  · intro h0
    have hprev : goToPreviousPage st = st := by
      unfold goToPreviousPage flipPrev
      rw [if_pos h0]
    have hkl : (fun s => handleKeyPress s "ArrowLeft") st = st := by
      show handleKeyPress st "ArrowLeft" = st
      unfold handleKeyPress
      rw [if_pos (Or.inl rfl)]
      exact hprev
    have hku : (fun s => handleKeyPress s "ArrowUp") st = st := by
      show handleKeyPress st "ArrowUp" = st
      unfold handleKeyPress
      rw [if_pos (Or.inr rfl)]
      exact hprev
    refine ⟨?_, ?_, ?_⟩
    · rw [Function.iterate_fixed hprev k]; exact h0
    · rw [@Function.iterate_fixed _ (fun s => handleKeyPress s "ArrowLeft") st hkl k]
      exact h0
    · rw [@Function.iterate_fixed _ (fun s => handleKeyPress s "ArrowUp") st hku k]
      exact h0
  · intro hl
    have hnext : goToNextPage st = st := by
      unfold goToNextPage flipNext
      rw [hnp]
      dsimp only
      rw [if_neg (by omega)]
    rw [Function.iterate_fixed hnext k]
    exact hl

/-- C8 witness: three repetitions at both boundaries of a 12-page
document. -/
theorem boundary_nav_idempotent_witness :
    ((goToPreviousPage^[3]
        { numPages := some 12, currentPage := 0, pageInput := "1", isEditingPage := false
          }).currentPage = 0
     ∧ ((fun s => handleKeyPress s "ArrowLeft")^[3]
        { numPages := some 12, currentPage := 0, pageInput := "1", isEditingPage := false
          }).currentPage = 0
     ∧ ((fun s => handleKeyPress s "ArrowUp")^[3]
        { numPages := some 12, currentPage := 0, pageInput := "1", isEditingPage := false
          }).currentPage = 0)
    ∧ (goToNextPage^[3]
        { numPages := some 12, currentPage := 11, pageInput := "12", isEditingPage := false
          }).currentPage = 12 - 1 :=
  ⟨(boundary_nav_idempotent
      { numPages := some 12, currentPage := 0, pageInput := "1", isEditingPage := false }
      12 3 rfl).1 rfl,
   (boundary_nav_idempotent
      { numPages := some 12, currentPage := 11, pageInput := "12", isEditingPage := false }
      12 3 rfl).2 rfl⟩

/-- C10: manual page entry accepts any string whose longest leading
run of decimal digits denotes some `n` with `1 ≤ n ≤ pageCount` —
not only fully numeric strings — and navigates to index `n - 1`;
a string `parseInt` cannot parse at all is rejected with the state
unchanged and the field reverted. -/
theorem submit_accepts_leading_digits :
    (∀ (st : ViewerState) (p n : Nat), st.numPages = some p →
       decValue st.pageInput.data = some n → 1 ≤ n → n ≤ p →
       (handlePageInputSubmit st).currentPage = n - 1)
    ∧ (∀ st : ViewerState, jsParseInt st.pageInput = none →
       (handlePageInputSubmit st).currentPage = st.currentPage
       ∧ (handlePageInputSubmit st).pageInput = toString (st.currentPage + 1)) := by
  constructor
  · intro st p n hnp hdv h1 h2
    have hj : jsParseInt st.pageInput = some (n : Int) :=
      jsParseIntCore_decValue st.pageInput.data n hdv h1
    rw [handlePageInputSubmit_valid st p (n : Int) hnp hj (by omega)
        (by exact_mod_cast h2)]
    dsimp only
    omega
  · intro st hj
    rw [handlePageInputSubmit_nan st hj]
    exact ⟨rfl, rfl⟩

/-- C10 witness: the entry "3abc" on a 12-page document navigates to
index 2, and the digit-free entry "abc" is rejected unchanged. -/
theorem submit_accepts_leading_digits_witness :
    (handlePageInputSubmit (ViewerState.mk (some 12) 0 "3abc" true)).currentPage = 3 - 1
    ∧ ((handlePageInputSubmit (ViewerState.mk (some 12) 7 "abc" true)).currentPage
        = (ViewerState.mk (some 12) 7 "abc" true).currentPage
      ∧ (handlePageInputSubmit (ViewerState.mk (some 12) 7 "abc" true)).pageInput
        = toString ((ViewerState.mk (some 12) 7 "abc" true).currentPage + 1)) :=
  ⟨submit_accepts_leading_digits.1 (ViewerState.mk (some 12) 0 "3abc" true) 12 3 rfl
      (by decide) (by decide) (by decide),
   submit_accepts_leading_digits.2 (ViewerState.mk (some 12) 7 "abc" true) (by decide)⟩

end Flipbook
